import Mathlib

/-!
Verification of `src/collectors/adjust.py`: a linear pipeline that fetches
per-app usage reports from the adjust.com KPI API, merges them into one
table, writes the table to a CSV file and bulk-loads it into a Vertica
table via truncate-and-reload.

The Python functions are shallowly embedded below.  External effects
(the HTTP GET inside `pd.read_csv`, the filesystem, the ODBC cursor) are
passed in explicitly as oracles / state so that every function is a pure,
executable Lean definition.
-/

namespace Adjust

/-- Python-level exceptions that the pipeline can raise. -/
inductive PyError where
  /-- ValueError: raised by tuple unpacking with the wrong arity and by
  `pd.concat` on an empty list of frames. -/
  | valueError
  /-- pandas EmptyDataError: `pd.read_csv` on an empty body. -/
  | emptyDataError
  /-- a network / HTTP failure inside `pd.read_csv(url)`. -/
  | fetchError
  /-- FileExistsError: `os.makedirs` on an existing path. -/
  | fileExistsError
  /-- a database error raised by `cursor.execute`. -/
  | sqlError
deriving Repr, DecidableEq

/-- One raw row of the CSV body returned by the adjust.com API, in the
column order the code assigns via `names=['adj_date','os','daus','waus',
'maus','installs']`.  Numeric cells may be missing (`none` = NaN). -/
structure RawRow where
  adj_date : String
  os : String
  daus : Option Int
  waus : Option Int
  maus : Option Int
  installs : Option Int
deriving Repr, DecidableEq

/-- A processed row of the per-app frame after `collect_app`: `installs`
has been `fillna(0).astype(int)`-ed (hence an `Int`, never null) and the
constant `app` column has been appended. -/
structure ReportRow where
  adj_date : String
  os : String
  daus : Option Int
  waus : Option Int
  maus : Option Int
  installs : Int
  app : String
deriving Repr, DecidableEq

/-- A pandas DataFrame with the report schema: an ordered list of rows. -/
abbrev Frame : Type := List ReportRow

/-- An HTTP oracle: what body (list of raw CSV rows) a GET of each URL
returns, or the network error it raises. -/
def Http : Type := String → Except PyError (List RawRow)

/-- Embedding of `build_dau_url` (src/collectors/adjust.py:136-148).
`ADJUST_URL_BASE.format(app_key=k)` substitutes `k` for the
`\x7bapp_key\x7d` placeholder that ends the template
`"https://api.adjust.com/kpis/v1/\x7bapp_key\x7d"`, i.e. it yields
`"https://api.adjust.com/kpis/v1/" ++ k`; each `url += ...` line of the
source is one append below, in source order. -/
def build_dau_url (app_key token : String) : String :=
  let url := "https://api.adjust.com/kpis/v1/" ++ app_key
  let url := url ++ ".csv"
  let url := url ++ ("?user_token=" ++ token)
  let url := url ++ "&kpis=daus,waus,maus,installs"
  let url := url ++ "&start_date=2000-01-01"
  let url := url ++ "&end_date=2030-01-01"
  let url := url ++ "&grouping=day,os_names"
  let url := url ++ "&os_names=android,ios"
  url

/-- Embedding of `pd.read_csv(url, sep=",", header=0, names=col_names)`
applied to an already-fetched body (src/collectors/adjust.py:160).
pandas raises EmptyDataError on an empty body; with `header=0` the first
row of the body is consumed as the header row (its cell values are
discarded, `names` relabels the columns) and only the remaining rows
become data rows. -/
def pd_read_csv_header0 (body : List RawRow) : Except PyError (List RawRow) :=
  match body with
  | [] => .error .emptyDataError
  | _ :: rest => .ok rest

/-- Embedding of `collect_app` (src/collectors/adjust.py:151-169): GET the
URL (the network part of `pd.read_csv(url, ...)`, given by the `http`
oracle), parse with `header=0, names=col_names`, then
`df['installs'] = df['installs'].fillna(0).astype(int)` and
`df['app'] = app_name`. -/
def collect_app (app_name url : String) (http : Http) : Except PyError Frame := do
  let body ← http url
  let rows ← pd_read_csv_header0 body
  .ok (rows.map fun r =>
    { adj_date := r.adj_date
      os := r.os
      daus := r.daus
      waus := r.waus
      maus := r.maus
      installs := (r.installs).getD 0
      app := app_name })

/-- Embedding of `pd.concat(frames)` (src/collectors/adjust.py:104):
raises `ValueError: No objects to concatenate` on an empty list,
otherwise concatenates the frames in order. -/
def pd_concat (frames : List Frame) : Except PyError Frame :=
  match frames with
  | [] => .error .valueError
  | _ => .ok frames.flatten

/-- Embedding of Python tuple unpacking `app, key = s` of a string `s`:
iterating a string yields its characters (as 1-character strings); the
unpacking succeeds exactly when the string has exactly two characters and
otherwise raises ValueError. -/
def pyUnpack2 (s : String) : Except PyError (String × String) :=
  match s.data with
  | [a, b] => .ok (String.mk [a], String.mk [b])
  | _ => .error .valueError

/-- Embedding of the loop body and `pd.concat` input of `merge_apps`
(src/collectors/adjust.py:98-102).  `apps` is the configured mapping of
app name to API key, as an insertion-ordered association list (Python
dicts preserve insertion order).  The source line is
`for app, key in iter(apps):` — `iter` of a dict iterates its KEYS, so
the element produced for an entry `(name, key)` is the name string alone,
which is then tuple-unpacked into `app, key`. -/
def merge_loop (apps : List (String × String)) (adjust_token : String) (http : Http) :
    Except PyError (List Frame) :=
  match apps with
  | [] => .ok []
  | (name, _) :: rest => do
    let (app, key) ← pyUnpack2 name
    let url := build_dau_url key adjust_token
    let df ← collect_app app url http
    let frames ← merge_loop rest adjust_token http
    .ok (df :: frames)

/-- Embedding of `merge_apps` (src/collectors/adjust.py:91-106): run the
fetch loop, then `pd.concat` the collected frames. -/
def merge_apps (apps : List (String × String)) (adjust_token : String) (http : Http) :
    Except PyError Frame := do
  let frames ← merge_loop apps adjust_token http
  pd_concat frames

/-! Filesystem model and the File Writer. -/

/-- A model filesystem: the set of existing directories and a map from
file path to file contents. -/
structure FS where
  dirs : List String
  files : List (String × String)
deriving Repr, DecidableEq

/-- Embedding of `os.path.join(p, f)` for the relative joins this code
performs: insert a separator unless `p` already ends in one or is empty. -/
def os_path_join (p f : String) : String :=
  if p = "" then f
  else if p.endsWith "/" then p ++ f
  else p ++ "/" ++ f

/-- Embedding of `os.path.exists(p)`: true if `p` exists as a directory
or as a file. -/
def os_path_exists (fs : FS) (p : String) : Bool :=
  fs.dirs.contains p || fs.files.any (fun kv => kv.1 == p)

/-- Embedding of `os.makedirs(p)`: raises FileExistsError when the path
already exists, otherwise records the directory (intermediate directories
are not modelled separately). -/
def os_makedirs (fs : FS) (p : String) : Except PyError FS :=
  if os_path_exists fs p then .error .fileExistsError
  else .ok { fs with dirs := p :: fs.dirs }

/-- Write (create or overwrite) the file at `p` with `content`. -/
def fsWrite (fs : FS) (p content : String) : FS :=
  { fs with files := (p, content) :: fs.files.filter (fun kv => kv.1 != p) }

/-- Read the file at `p`, if present. -/
def fsRead (fs : FS) (p : String) : Option String :=
  fs.files.lookup p

/-- Render one CSV cell of a nullable integer column: NaN serializes as
the empty cell. -/
def csvCell (v : Option Int) : String :=
  match v with
  | none => ""
  | some n => toString n

/-- One serialized CSV line of a report row, comma-delimited, in frame
column order (the six named columns then the appended app column). -/
def row_to_csv (r : ReportRow) : String :=
  String.intercalate ","
    [r.adj_date, r.os, csvCell r.daus, csvCell r.waus, csvCell r.maus,
      toString r.installs, r.app]

/-- The CSV header line matching the frame column order. -/
def csv_header : String := "adj_date,os,daus,waus,maus,installs,app"

/-- Embedding of `df.to_csv(path, index=False)`'s serialized output:
a header row followed by one comma-delimited line per row. -/
def to_csv (df : Frame) : String :=
  String.intercalate "\n" (csv_header :: df.map row_to_csv) ++ "\n"

/-- Embedding of `write_to_file` (src/collectors/adjust.py:109-124):
join the path, create the directory if `os.path.exists` is false, then
`df.to_csv(data_file, index=False)` (create-or-overwrite), and return the
joined path. -/
def write_to_file (df : Frame) (load_path filename : String) (fs : FS) :
    Except PyError (String × FS) := do
  let data_file := os_path_join load_path filename
  let fs1 ← if os_path_exists fs load_path then .ok fs else os_makedirs fs load_path
  .ok (data_file, fsWrite fs1 data_file (to_csv df))

/-- Embedding of `collect` (src/collectors/adjust.py:53-62): merge the
apps then write the merged frame to `load_path` under the default
filename `"output.csv"`. -/
def collect (apps : List (String × String)) (token load_path : String) (http : Http)
    (fs : FS) : Except PyError (String × FS) := do
  let df ← merge_apps apps token http
  write_to_file df load_path "output.csv" fs

/-! Warehouse loader model. -/

/-- A model ODBC cursor: the rows of the destination table, plus the
trace of SQL statements executed through it, in execution order. -/
structure Cursor where
  tableRows : List String
  executed : List String
deriving Repr, DecidableEq

/-- An SQL executor: running one statement yields success or an error,
and the possibly-updated cursor state (the database state persists even
when the statement raises). -/
def SqlExec : Type := String → Cursor → Except PyError Unit × Cursor

/-- The TRUNCATE statement built by `load`
(src/collectors/adjust.py:67-68): `"TRUNCATE TABLE {tbl}"`. -/
def trunc_stmt (tbl : String) : String := "TRUNCATE TABLE " ++ tbl

/-- The COPY statement built by `load` (src/collectors/adjust.py:77-82). -/
def copy_stmt (table data_file reject_file exception_file : String) : String :=
  "COPY " ++ table ++ " FROM LOCAL '" ++ data_file ++ "' " ++
    "DELIMITER ',' SKIP 1 " ++
    "REJECTED DATA '" ++ reject_file ++ "' " ++
    "EXCEPTIONS '" ++ exception_file ++ "' " ++
    "ABORT ON ERROR DIRECT"

/-- Embedding of `load` (src/collectors/adjust.py:65-88): execute the
TRUNCATE statement, then execute the COPY statement; there is no
try/except and no transaction around the pair, so an error from either
`cursor.execute` propagates with the database state left as-is. -/
def load (exec : SqlExec) (table data_file reject_file exception_file : String)
    (c : Cursor) : Except PyError Unit × Cursor :=
  match exec (trunc_stmt table) c with
  | (.error e, c1) => (.error e, c1)
  | (.ok _, c1) =>
    match exec (copy_stmt table data_file reject_file exception_file) c1 with
    | (.error e, c2) => (.error e, c2)
    | (.ok _, c2) => (.ok (), c2)

/-- Is the statement a TRUNCATE TABLE statement? -/
def stmtIsTruncate (stmt : String) : Bool :=
  "TRUNCATE TABLE ".data.isPrefixOf stmt.data

/-- Modelled from the spec: the warehouse interface of section 6 — an
ODBC cursor whose `execute` supports `TRUNCATE TABLE` (removes every row
of the table) and the bulk `COPY` statement, whose outcome (the loaded
rows, or the error it raises) is the parameter `copyResult`; there is no
transaction, so a statement's effect persists regardless of what runs
after it.  Every executed statement is appended to the trace. -/
def vexec (copyResult : Except PyError (List String)) : SqlExec := fun stmt c =>
  if stmtIsTruncate stmt then
    (.ok (), { tableRows := [], executed := c.executed ++ [stmt] })
  else
    match copyResult with
    | .ok rows => (.ok (), { tableRows := rows, executed := c.executed ++ [stmt] })
    | .error e => (.error e, { c with executed := c.executed ++ [stmt] })

/-! The CLI pipeline. -/

/-- Embedding of the body of `adjust_cmd` (src/collectors/adjust.py:36-50)
after settings are read: connect (the cursor `c` is obtained first and no
statement has run through it yet), `collect` the data into an output
file, then `load` it with the conventional sidecar paths.  If `collect`
raises, the error propagates before any file is written beyond what
`collect` itself did and before any SQL statement executes. -/
def adjust_run (apps : List (String × String)) (token load_path table : String)
    (http : Http) (exec : SqlExec) (fs : FS) (c : Cursor) :
    Except PyError Unit × FS × Cursor :=
  match collect apps token load_path http fs with
  | .error e => (.error e, fs, c)
  | .ok (output_file, fs1) =>
    let reject_file := os_path_join load_path "rejects"
    let exception_file := os_path_join load_path "exceptions"
    match load exec table output_file reject_file exception_file c with
    | (.error e, c1) => (.error e, fs1, c1)
    | (.ok _, c1) => (.ok (), fs1, c1)

/-! Concrete instances used by witnesses and counterexamples. -/

/-- The app mapping of the module docstring's example configuration. -/
def appsExample : List (String × String) := [("firefox", "abc123"), ("focus", "abc123")]

/-- An HTTP oracle whose every GET fails with a network error. -/
def httpFail : Http := fun _ => .error .fetchError

/-- An SQL executor on which every statement succeeds without effect. -/
def execOk : SqlExec := fun _ c => (.ok (), c)

/-- An empty filesystem. -/
def fsInit : FS := { dirs := [], files := [] }

/-- A fresh cursor: no table rows, nothing executed. -/
def cursorInit : Cursor := { tableRows := [], executed := [] }

/-- A sample raw CSV row with the given date and installs cell. -/
def sampleRaw (d : String) (i : Option Int) : RawRow :=
  { adj_date := d, os := "android", daus := some 10, waus := some 20,
    maus := some 30, installs := i }

/-- A one-row response body. -/
def bodyC2 : List RawRow := [sampleRaw "2025-01-01" (some 7)]

/-- An HTTP oracle returning the one-row body. -/
def httpC2 : Http := fun _ => .ok bodyC2

/-- A body whose data rows hold a null and a negative installs cell. -/
def bodyC3 : List RawRow :=
  [sampleRaw "hdr" none, sampleRaw "2025-01-01" none, sampleRaw "2025-01-02" (some (-1))]

/-- An HTTP oracle returning `bodyC3`. -/
def httpC3 : Http := fun _ => .ok bodyC3

/-- A body whose data rows hold a null and a non-negative installs cell. -/
def bodyC3w : List RawRow :=
  [sampleRaw "hdr" none, sampleRaw "2025-01-01" none, sampleRaw "2025-01-02" (some 5)]

/-- An HTTP oracle returning `bodyC3w`. -/
def httpC3w : Http := fun _ => .ok bodyC3w

/-- The frame `collect_app` produces from `bodyC3w` for app firefox. -/
def dfC3w : Frame :=
  [{ adj_date := "2025-01-01", os := "android", daus := some 10, waus := some 20,
     maus := some 30, installs := 0, app := "firefox" },
   { adj_date := "2025-01-02", os := "android", daus := some 10, waus := some 20,
     maus := some 30, installs := 5, app := "firefox" }]

/-- A two-app mapping whose first app's URL would fetch 3 data rows and
whose second would fetch 5. -/
def appsThreeFive : List (String × String) := [("firefox", "key1"), ("focus", "key2")]

/-- A body with 3 data rows after the header row. -/
def bodyThree : List RawRow :=
  [sampleRaw "hdr" none, sampleRaw "d1" (some 1), sampleRaw "d2" (some 2),
    sampleRaw "d3" (some 3)]

/-- A body with 5 data rows after the header row. -/
def bodyFive : List RawRow :=
  [sampleRaw "hdr" none, sampleRaw "e1" (some 1), sampleRaw "e2" (some 2),
    sampleRaw "e3" (some 3), sampleRaw "e4" (some 4), sampleRaw "e5" (some 5)]

/-- An HTTP oracle serving 3 data rows for the first app's key and 5 for
every other URL. -/
def httpC6 : Http := fun url =>
  if url = build_dau_url "key1" "tok" then .ok bodyThree else .ok bodyFive

/-! Helper lemmas. -/

/-- Appending preserves the data of a string concatenation. -/
theorem data_append_eq (s t : String) : (s ++ t).data = s.data ++ t.data :=
  String.data_append s t

/-- The TRUNCATE statement is recognized as a truncate. -/
theorem stmtIsTruncate_trunc (tbl : String) : stmtIsTruncate (trunc_stmt tbl) = true := by
  simp [stmtIsTruncate, trunc_stmt, data_append_eq, List.isPrefixOf]

/-- The COPY statement is not recognized as a truncate. -/
theorem stmtIsTruncate_copy (t d r x : String) :
    stmtIsTruncate (copy_stmt t d r x) = false := by
  simp [stmtIsTruncate, copy_stmt, data_append_eq, List.isPrefixOf, List.append_assoc]

/-- Binding a success computes the continuation. -/
theorem except_bind_ok {ε α β : Type} (a : α) (f : α → Except ε β) :
    (Except.ok a : Except ε α) >>= f = f a := rfl

/-- Binding an error short-circuits. -/
theorem except_bind_error {ε α β : Type} (e : ε) (f : α → Except ε β) :
    (Except.error e : Except ε α) >>= f = Except.error e := rfl

/-- The fetch loop over an appended mapping is the two loops in sequence. -/
theorem merge_loop_append (xs ys : List (String × String)) (token : String) (http : Http) :
    merge_loop (xs ++ ys) token http =
      merge_loop xs token http >>= fun l1 =>
        merge_loop ys token http >>= fun l2 => Except.ok (l1 ++ l2) := by
  induction xs with
  | nil =>
    cases h : merge_loop ys token http <;>
      simp [merge_loop, h, except_bind_ok, except_bind_error]
  | cons hd tl ih =>
    obtain ⟨name, key⟩ := hd
    cases hu : pyUnpack2 name with
    | error e => simp [merge_loop, hu, except_bind_ok, except_bind_error]
    | ok ab =>
      obtain ⟨app, akey⟩ := ab
      cases hc : collect_app app (build_dau_url akey token) http with
      | error e => simp [merge_loop, hu, hc, except_bind_ok, except_bind_error]
      | ok df =>
        cases ht : merge_loop tl token http with
        | error e => simp [merge_loop, hu, hc, ht, ih, except_bind_ok, except_bind_error]
        | ok l1 =>
          cases hy : merge_loop ys token http with
          | error e => simp [merge_loop, hu, hc, ht, hy, ih, except_bind_ok, except_bind_error]
          | ok l2 => simp [merge_loop, hu, hc, ht, hy, ih, except_bind_ok, except_bind_error]

/-- A filesystem write leaves the directory set unchanged. -/
theorem fsWrite_dirs (fs : FS) (p c : String) : (fsWrite fs p c).dirs = fs.dirs := rfl

/-- Reading back the path just written yields the written contents. -/
theorem fsRead_fsWrite (fs : FS) (p c : String) : fsRead (fsWrite fs p c) p = some c := by
  simp [fsRead, fsWrite, List.lookup]

/-- A path present in the directory set exists. -/
theorem os_path_exists_of_dirs (fs : FS) (q : String) (h : fs.dirs.contains q = true) :
    os_path_exists fs q = true := by
  have hq : q ∈ fs.dirs := by simpa using h
  simp [os_path_exists, hq]

/-! The claims. -/

/-- Claim C5: building the request URL for app key "abc123" and token
"tok" yields exactly the documented URL string. -/
theorem C5_build_dau_url_example :
    build_dau_url "abc123" "tok" =
      "https://api.adjust.com/kpis/v1/abc123.csv?user_token=tok&kpis=daus,waus,maus,installs&start_date=2000-01-01&end_date=2030-01-01&grouping=day,os_names&os_names=android,ios" := by
  rfl

/-- Claim C10: `build_dau_url` is the literal concatenation of its two
arguments with fixed URL fragments, for every app key and token; no
URL-encoding or validation is performed, so reserved characters in either
argument pass through verbatim. -/
theorem C10_build_dau_url_literal_concat (app_key token : String) :
    build_dau_url app_key token =
      "https://api.adjust.com/kpis/v1/" ++ app_key ++ ".csv?user_token=" ++ token ++
        "&kpis=daus,waus,maus,installs&start_date=2000-01-01&end_date=2030-01-01&grouping=day,os_names&os_names=android,ios" := by
  apply String.ext
  simp only [build_dau_url, data_append_eq, List.append_assoc]
  rfl

/-- Claim C9: on an empty app mapping `merge_apps` raises ValueError
(`pd.concat` of an empty list of frames) rather than returning an empty
frame, and the whole run aborts with that error before any file is
written or any SQL statement executes. -/
theorem C9_empty_mapping_errors (token load_path table : String) (http : Http)
    (exec : SqlExec) (fs : FS) (c : Cursor) :
    merge_apps [] token http = .error .valueError
    ∧ adjust_run [] token load_path table http exec fs c = (.error .valueError, fs, c) :=
  ⟨rfl, rfl⟩

/-- Claim C1 (code bug): on the module docstring's own example app
mapping, `merge_apps` raises ValueError for every token and every HTTP
oracle — `for app, key in iter(apps)` iterates the dict's keys and
tuple-unpacks each key string, so the Fetcher is never invoked with an
entry's (name, key) pair. -/
theorem C1_merge_apps_crashes_on_example_config (token : String) (http : Http) :
    merge_apps appsExample token http = .error .valueError := rfl

/-- Claim C6 (code bug): with two configured apps whose keys would fetch
3 and 5 data rows, the run raises ValueError instead of producing the
8-row merged table: the key-iteration bug of `merge_apps` fires before
any fetch happens. -/
theorem C6_no_merged_table_on_two_apps :
    merge_apps appsThreeFive "tok" httpC6 = .error .valueError
    ∧ adjust_run appsThreeFive "tok" "/tmp/adjust_daus" "t" httpC6 execOk fsInit cursorInit
        = (.error .valueError, fsInit, cursorInit) :=
  ⟨rfl, rfl⟩

/-- Claim C2 counterexample: a response whose body holds exactly one data
row yields an EMPTY per-app table — `header=0` makes `pd.read_csv` consume
the first body row as the header, so not all N rows are kept. -/
theorem C2_counterexample_one_row_body :
    (collect_app "firefox" "u" httpC2).map List.length = .ok 0
    ∧ bodyC2.length = 1 :=
  ⟨rfl, rfl⟩

/-- Claim C2 (amended): `collect_app` parses the response body with
`header=0, names=col_names`, so the FIRST row of the body is consumed as
the header row and discarded; a body with N rows yields a per-app table
of N - 1 rows (all remaining rows are kept). -/
theorem C2_first_row_consumed_as_header (app url : String) (http : Http)
    (body : List RawRow) (hbody : http url = .ok body) (hne : body ≠ []) :
    (collect_app app url http).map List.length = .ok (body.length - 1) := by
  cases body with
  | nil => exact absurd rfl hne
  | cons hd rest =>
    simp [collect_app, hbody, pd_read_csv_header0, except_bind_ok, Except.map]

/-- Claim C2 witness: the amended statement evaluated on the concrete
one-row body. -/
theorem C2_witness :
    (collect_app "firefox" "u" httpC2).map List.length = .ok (bodyC2.length - 1) :=
  C2_first_row_consumed_as_header "firefox" "u" httpC2 bodyC2 rfl (by decide)

/-- Claim C3 counterexample: a fetched input whose installs column holds
a null and the value -1 produces the per-app installs column [0, -1]: the
null became 0, but -1 is negative, so installs is not non-negative for
every fetched input. -/
theorem C3_counterexample_negative_installs :
    (collect_app "firefox" "u" httpC3).map (fun df => df.map ReportRow.installs)
      = .ok [0, -1]
    ∧ (-1 : Int) < 0 :=
  ⟨rfl, by decide⟩

/-- Claim C3 (amended): after fetch the installs column is never null and
is an integer — each value is the input cell's value with nulls coerced
to 0 — and it is non-negative provided every installs cell of the
response body is null or non-negative; the code does not itself enforce
non-negativity. -/
theorem C3_installs_never_null (app url : String) (http : Http) (body : List RawRow)
    (df : Frame) (hbody : http url = .ok body)
    (hnonneg : ∀ raw ∈ body, 0 ≤ raw.installs.getD 0)
    (hdf : collect_app app url http = .ok df) :
    df.map ReportRow.installs = (body.drop 1).map (fun raw => raw.installs.getD 0)
    ∧ df.all (fun r => decide (0 ≤ r.installs)) = true := by
  cases body with
  | nil =>
    simp [collect_app, hbody, pd_read_csv_header0, except_bind_ok, except_bind_error] at hdf
  | cons hd rest =>
    simp only [collect_app, hbody, pd_read_csv_header0, except_bind_ok] at hdf
    have hdf' : df = rest.map (fun r =>
        ({ adj_date := r.adj_date, os := r.os, daus := r.daus, waus := r.waus,
           maus := r.maus, installs := (r.installs).getD 0, app := app } : ReportRow)) := by
      cases hdf
      rfl
    subst hdf'
    refine ⟨by simp, ?_⟩
    simp only [List.all_eq_true, List.mem_map, decide_eq_true_eq]
    rintro r ⟨raw, hraw, rfl⟩
    exact hnonneg raw (List.mem_cons_of_mem hd hraw)

/-- Claim C3 witness: the amended statement evaluated on a concrete body
containing a null installs cell. -/
theorem C3_witness :
    dfC3w.map ReportRow.installs = (bodyC3w.drop 1).map (fun raw => raw.installs.getD 0)
    ∧ dfC3w.all (fun r => decide (0 ≤ r.installs)) = true :=
  C3_installs_never_null "firefox" "u" httpC3w bodyC3w dfC3w rfl (by decide) rfl

/-- Claim C4: in every `load` invocation the TRUNCATE statement executes
strictly before the COPY statement, whether the COPY succeeds or raises;
when the COPY raises, the truncate has already run and is not rolled
back, so the target table is left empty. -/
theorem C4_truncate_before_copy (table data_file reject_file exception_file : String)
    (c : Cursor) (e : PyError) (rows : List String) :
    load (vexec (.error e)) table data_file reject_file exception_file c
      = (.error e,
          { tableRows := [],
            executed := c.executed ++
              [trunc_stmt table, copy_stmt table data_file reject_file exception_file] })
    ∧ load (vexec (.ok rows)) table data_file reject_file exception_file c
      = (.ok (),
          { tableRows := rows,
            executed := c.executed ++
              [trunc_stmt table, copy_stmt table data_file reject_file exception_file] }) := by
  constructor <;>
    simp [load, vexec, stmtIsTruncate_trunc, stmtIsTruncate_copy, List.append_assoc]

/-- Claim C7: `write_to_file` creates the target directory when absent,
writes the serialized CSV at the fixed filename inside it, returns the
joined path, and a second call succeeds and overwrites the file (the
target directory is assumed not to be an existing regular file). -/
theorem C7_write_to_file_contract (df1 df2 : Frame) (load_path : String) (fs : FS)
    (hfile : fs.files.all (fun kv => kv.1 != load_path) = true) :
    ∃ fs1 fs2,
      write_to_file df1 load_path "output.csv" fs
        = .ok (os_path_join load_path "output.csv", fs1)
      ∧ os_path_exists fs1 load_path = true
      ∧ fsRead fs1 (os_path_join load_path "output.csv") = some (to_csv df1)
      ∧ write_to_file df2 load_path "output.csv" fs1
          = .ok (os_path_join load_path "output.csv", fs2)
      ∧ fsRead fs2 (os_path_join load_path "output.csv") = some (to_csv df2) := by
  have hany : fs.files.any (fun kv => kv.1 == load_path) = false := by
    simp only [List.all_eq_true] at hfile
    simp only [List.any_eq_false]
    intro kv hkv
    simpa using hfile kv hkv
  cases hex : os_path_exists fs load_path with
  | true =>
    have hdirs : fs.dirs.contains load_path = true := by
      have := hex
      simp only [os_path_exists, hany, Bool.or_false] at this
      exact this
    have hex1 : os_path_exists (fsWrite fs (os_path_join load_path "output.csv") (to_csv df1))
        load_path = true :=
      os_path_exists_of_dirs _ _ (by simpa [fsWrite_dirs] using hdirs)
    refine ⟨fsWrite fs (os_path_join load_path "output.csv") (to_csv df1),
      fsWrite (fsWrite fs (os_path_join load_path "output.csv") (to_csv df1))
        (os_path_join load_path "output.csv") (to_csv df2),
      ?_, hex1, fsRead_fsWrite _ _ _, ?_, fsRead_fsWrite _ _ _⟩
    · simp [write_to_file, hex, except_bind_ok]
    · simp [write_to_file, hex1, except_bind_ok]
  | false =>
    have hdirs1 : (FS.mk (load_path :: fs.dirs) fs.files).dirs.contains load_path = true := by
      simp
    have hex1 : os_path_exists
        (fsWrite (FS.mk (load_path :: fs.dirs) fs.files)
          (os_path_join load_path "output.csv") (to_csv df1)) load_path = true :=
      os_path_exists_of_dirs _ _ hdirs1
    refine ⟨fsWrite (FS.mk (load_path :: fs.dirs) fs.files)
        (os_path_join load_path "output.csv") (to_csv df1),
      fsWrite (fsWrite (FS.mk (load_path :: fs.dirs) fs.files)
          (os_path_join load_path "output.csv") (to_csv df1))
        (os_path_join load_path "output.csv") (to_csv df2),
      ?_, hex1, fsRead_fsWrite _ _ _, ?_, fsRead_fsWrite _ _ _⟩
    · simp [write_to_file, hex, os_makedirs, except_bind_ok]
    · simp [write_to_file, hex1, except_bind_ok]

/-- Claim C7 witness: the contract evaluated for two concrete frames, a
concrete path and the empty filesystem. -/
theorem C7_witness :
    ∃ fs1 fs2,
      write_to_file [] "/tmp/adjust_daus" "output.csv" fsInit
        = .ok (os_path_join "/tmp/adjust_daus" "output.csv", fs1)
      ∧ os_path_exists fs1 "/tmp/adjust_daus" = true
      ∧ fsRead fs1 (os_path_join "/tmp/adjust_daus" "output.csv") = some (to_csv [])
      ∧ write_to_file dfC3w "/tmp/adjust_daus" "output.csv" fs1
          = .ok (os_path_join "/tmp/adjust_daus" "output.csv", fs2)
      ∧ fsRead fs2 (os_path_join "/tmp/adjust_daus" "output.csv") = some (to_csv dfC3w) :=
  C7_write_to_file_contract [] dfC3w "/tmp/adjust_daus" fsInit (by decide)

/-- Claim C8: when the fetch of a configured app that the loop reaches
raises an error, `merge_apps` propagates that same error with no retry
or suppression, and the run aborts with it: the filesystem is untouched
(no output file) and the cursor has executed no SQL statement. -/
theorem C8_fetch_error_aborts_run (pre post : List (String × String))
    (name key app akey token load_path table : String) (http : Http) (exec : SqlExec)
    (fs : FS) (c : Cursor) (frames : List Frame) (e : PyError)
    (hpre : merge_loop pre token http = .ok frames)
    (hunpack : pyUnpack2 name = .ok (app, akey))
    (hfetch : collect_app app (build_dau_url akey token) http = .error e) :
    merge_apps (pre ++ (name, key) :: post) token http = .error e
    ∧ adjust_run (pre ++ (name, key) :: post) token load_path table http exec fs c
        = (.error e, fs, c) := by
  have hloop : merge_loop (pre ++ (name, key) :: post) token http = .error e := by
    rw [merge_loop_append, hpre]
    simp [merge_loop, hunpack, hfetch, except_bind_ok, except_bind_error]
  have hmerge : merge_apps (pre ++ (name, key) :: post) token http = .error e := by
    simp [merge_apps, hloop, except_bind_error]
  exact ⟨hmerge, by simp [adjust_run, collect, hmerge, except_bind_error]⟩

/-- Claim C8 witness: a one-app mapping whose app name unpacks and whose
fetch fails with a network error; the run aborts with that error, leaving
the filesystem and cursor untouched. -/
theorem C8_witness :
    merge_apps ([] ++ ("ab", "k1") :: []) "tok" httpFail = .error .fetchError
    ∧ adjust_run ([] ++ ("ab", "k1") :: []) "tok" "/tmp/adjust_daus" "t" httpFail execOk
        fsInit cursorInit = (.error .fetchError, fsInit, cursorInit) :=
  C8_fetch_error_aborts_run [] [] "ab" "k1" "a" "b" "tok" "/tmp/adjust_daus" "t" httpFail
    execOk fsInit cursorInit [] .fetchError rfl rfl rfl

end Adjust
